import Mathlib

/-!
# Verification of the Monitor metrics agent

Shallow embedding of the sampling-and-exposition core of the Monitor
repository (`src/metrics.c`, `src/expose_metrics.c`, `src/json_cfg.c`,
`src/main.c`) together with proofs and refutations of the specification
claims about it.

Modelling conventions:
* C `unsigned long long` values are `Nat` below `2^64`; every arithmetic
  operation the C code performs on them is taken modulo `2^64`
  (`uadd64`, `usub64`, `umul64`).
* C `double` results are modelled as `ℚ`; the operations the code
  performs on them (subtraction, division, multiplication by constants,
  conversion from unsigned integers) are exact over the value ranges the
  claims exercise, except that a division whose divisor is zero is a
  distinguished event (the C code would produce an IEEE infinity/NaN),
  modelled with `Option ℚ` where it can occur.
* Each `/proc` reader is embedded as a pure function of the values its
  `sscanf` scan extracts: `none` for "the sought line never matched",
  `some v` for "the line matched with value `v`". The scan loop leaves
  the receiving variable at its initial value `INICIAL_VALUE = 0` when
  no line matches, which the embeddings reproduce with `Option.getD 0`.
  The `fopen`-failure path of each reader (which returns the error
  sentinel directly) is orthogonal to the scanned values and is not a
  separate input.
-/

/-- `2^64`, the modulus of C `unsigned long long` arithmetic. -/
def W64 : Nat := 18446744073709551616

/-- C unsigned 64-bit addition: `(a + b) mod 2^64`. -/
def uadd64 (a b : Nat) : Nat := (a + b) % W64

/-- C unsigned 64-bit subtraction: `(a - b) mod 2^64`, for `a b < 2^64`. -/
def usub64 (a b : Nat) : Nat := (a + (W64 - b % W64)) % W64

/-- C unsigned 64-bit multiplication: `(a * b) mod 2^64`. -/
def umul64 (a b : Nat) : Nat := (a * b) % W64

/-- `#define INICIAL_VALUE 0` (metrics.h). -/
def INICIAL_VALUE : Nat := 0

/-- `ERROR_INT` (`-1`) as returned through an `unsigned long long`:
`(unsigned long long)(-1) = 2^64 - 1`. -/
def ERROR_INT : Nat := W64 - 1

/-- `#define ERROR_FLOAT -1.0` (metrics.h). -/
def ERROR_FLOAT : ℚ := -1

/-- `#define SECTOR_SIZE 512` (metrics.h). -/
def SECTOR_SIZE : Nat := 512

/-- `#define ONE_KB 1024.0` (metrics.h). -/
def ONE_KB : ℚ := 1024

/-- `#define MIN_VALUE 0` (expose_metrics.h). -/
def MIN_VALUE : ℚ := 0

/-- POSIX `CLOCKS_PER_SEC` (mandated value 1000000), used by
`get_average_bandwidth` to convert `clock_t` ticks to seconds. -/
def CLOCKS_PER_SEC : ℚ := 1000000

/-! ## Kernel stat readers (`src/metrics.c`) -/

/-- `get_change_context` (metrics.c:30): scans `/proc/stat` for a
`ctxt %llu` line.  Input: the scanned value when such a line matched.
The receiving variable starts at `INICIAL_VALUE = 0`; after the loop the
code returns `ERROR_INT` exactly when it still equals `INICIAL_VALUE`,
so a genuine `ctxt 0` line is indistinguishable from a missing line. -/
def get_change_context (ctxt : Option Nat) : Nat :=
  let cambios := ctxt.getD INICIAL_VALUE
  if cambios = INICIAL_VALUE then ERROR_INT else cambios

/-- `get_total_processes` (metrics.c:74): scans `/proc/stat` for a
`processes %llu` line; same `INICIAL_VALUE` sentinel check as
`get_change_context`. -/
def get_total_processes (processes : Option Nat) : Nat :=
  let p := processes.getD INICIAL_VALUE
  if p = INICIAL_VALUE then ERROR_INT else p

/-- `get_disk_stats` (metrics.c:118): scans `/proc/diskstats` for the
`sda` line and extracts the read and write counters (fields 4 and 8).
Input: the pair scanned from the `sda` line when present.  After the
loop only `read == INICIAL_VALUE` is checked — the write counter is
never validated — and on success the value returned is the unsigned sum
`read + write` converted to `double`. -/
def get_disk_stats (sda : Option (Nat × Nat)) : ℚ :=
  let read := (sda.map Prod.fst).getD INICIAL_VALUE
  let write := (sda.map Prod.snd).getD INICIAL_VALUE
  if read = INICIAL_VALUE then ERROR_FLOAT
  else ((uadd64 read write : Nat) : ℚ)

/-- `get_memory_total` (metrics.c:163): scans `/proc/meminfo` for
`MemTotal: %llu kB`; returns `ERROR_FLOAT` when the scanned variable is
still `INICIAL_VALUE` after the loop. -/
def get_memory_total (memTotal : Option Nat) : ℚ :=
  let total_mem := memTotal.getD INICIAL_VALUE
  if total_mem = INICIAL_VALUE then ERROR_FLOAT else (total_mem : ℚ)

/-- `get_memory_avalible` (metrics.c:206): scans `/proc/meminfo` for
`MemAvailable: %llu kB`; same sentinel check. -/
def get_memory_avalible (memAvailable : Option Nat) : ℚ :=
  let free_mem := memAvailable.getD INICIAL_VALUE
  if free_mem = INICIAL_VALUE then ERROR_FLOAT else (free_mem : ℚ)

/-- `get_memory_usage` (metrics.c:250): scans `/proc/meminfo` for both
`MemTotal` and `MemAvailable`; errors when either variable is still
`INICIAL_VALUE` after the loop; otherwise computes
`used_mem = total_mem - free_mem` (unsigned 64-bit subtraction, then
converted to `double`) and returns `(used_mem / total_mem) * 100.0`. -/
def get_memory_usage (memTotal memAvailable : Option Nat) : ℚ :=
  let total_mem := memTotal.getD INICIAL_VALUE
  let free_mem := memAvailable.getD INICIAL_VALUE
  if total_mem = INICIAL_VALUE ∨ free_mem = INICIAL_VALUE then ERROR_FLOAT
  else
    let used_mem : ℚ := (usub64 total_mem free_mem : Nat)
    (used_mem / (total_mem : ℚ)) * 100

/-- `get_minor_page_faults` (metrics.c:559): scans `/proc/vmstat` for
`pgfault %llu`.  There is no sentinel check after the loop: when no line
matches, the variable keeps its initial value `0` and `0` is returned
(the `ERROR_INT` return occurs only on `fopen` failure). -/
def get_minor_page_faults (pgfault : Option Nat) : Nat :=
  pgfault.getD INICIAL_VALUE

/-- `get_major_page_faults` (metrics.c:593): scans `/proc/vmstat` for
`pgmajfault %llu`; like `get_minor_page_faults`, no sentinel check after
the loop. -/
def get_major_page_faults (pgmajfault : Option Nat) : Nat :=
  pgmajfault.getD INICIAL_VALUE

/-! ## Rate/delta trackers (`src/metrics.c`) -/

/-- The eight saved `prev_*` jiffy counters of `get_cpu_usage`
(metrics.c:313, `static unsigned long long`, all initially
`INICIAL_VALUE`). -/
structure CpuState where
  prev_user : Nat
  prev_nice : Nat
  prev_system : Nat
  prev_idle : Nat
  prev_iowait : Nat
  prev_irq : Nat
  prev_softirq : Nat
  prev_steal : Nat
deriving Repr, DecidableEq

/-- The `CpuState` at process start: all `prev_*` counters are
`INICIAL_VALUE = 0`. -/
def cpuState0 : CpuState := ⟨0, 0, 0, 0, 0, 0, 0, 0⟩

/-- `get_cpu_usage` (metrics.c:311), as a function of the saved state
and the eight jiffy values scanned from the `cpu` line of `/proc/stat`.
Returns the computed percentage (or `ERROR_FLOAT`) together with the
updated state; on the `totald == 0` error path the function returns
before the `prev_*` assignments, so the state is unchanged there. -/
def get_cpu_usage (st : CpuState)
    (user nice system idle iowait irq softirq steal : Nat) :
    ℚ × CpuState :=
  let prev_idle_total := uadd64 st.prev_idle st.prev_iowait
  let idle_total := uadd64 idle iowait
  let prev_non_idle :=
    uadd64 (uadd64 (uadd64 (uadd64 (uadd64 st.prev_user st.prev_nice)
      st.prev_system) st.prev_irq) st.prev_softirq) st.prev_steal
  let non_idle :=
    uadd64 (uadd64 (uadd64 (uadd64 (uadd64 user nice) system) irq)
      softirq) steal
  let prev_total := uadd64 prev_idle_total prev_non_idle
  let total := uadd64 idle_total non_idle
  let totald := usub64 total prev_total
  let idled := usub64 idle_total prev_idle_total
  if totald = INICIAL_VALUE then (ERROR_FLOAT, st)
  else
    let cpu_usage_percent : ℚ := (((usub64 totald idled : Nat) : ℚ) / (totald : ℚ)) * 100
    (cpu_usage_percent, ⟨user, nice, system, idle, iowait, irq, softirq, steal⟩)

/-- The saved `prev_read_sectors`/`prev_write_sectors` counters of
`get_disk_usage` (metrics.c:392, `static unsigned long long`). -/
structure DiskState where
  prev_read_sectors : Nat
  prev_write_sectors : Nat
deriving Repr, DecidableEq

/-- `delta_reads` as computed at metrics.c:422: the raw unsigned 64-bit
subtraction `read_sectors - prev_read_sectors`. -/
def disk_delta_reads (prev_read_sectors read_sectors : Nat) : Nat :=
  usub64 read_sectors prev_read_sectors

/-- `delta_writes` as computed at metrics.c:423. -/
def disk_delta_writes (prev_write_sectors write_sectors : Nat) : Nat :=
  usub64 write_sectors prev_write_sectors

/-- `get_disk_usage` (metrics.c:389), as a function of the saved state
and the accumulated `sda` read/write sector counters scanned this call.
Computes the unsigned deltas against the previous sample, unconditionally
saves the current counters, and returns
`(total_sectors * SECTOR_SIZE) / (1024 * 1024)`. -/
def get_disk_usage (st : DiskState) (read_sectors write_sectors : Nat) :
    ℚ × DiskState :=
  let delta_reads := disk_delta_reads st.prev_read_sectors read_sectors
  let delta_writes := disk_delta_writes st.prev_write_sectors write_sectors
  let total_sectors := uadd64 delta_reads delta_writes
  let disk_usage_percent : ℚ :=
    ((umul64 total_sectors SECTOR_SIZE : Nat) : ℚ) / (ONE_KB * ONE_KB)
  (disk_usage_percent, ⟨read_sectors, write_sectors⟩)

/-- `get_network_usage` (metrics.c:443), as a function of the summed
receive/transmit byte counters scanned from `/proc/net/dev`:
`(rx_bytes + tx_bytes) / (1024 * 1024)`. -/
def get_network_usage (rx_bytes tx_bytes : Nat) : ℚ :=
  ((uadd64 rx_bytes tx_bytes : Nat) : ℚ) / (ONE_KB * ONE_KB)

/-- The saved `prev_rx_bytes`/`prev_tx_bytes`/`last_time` of
`get_average_bandwidth` (metrics.c:496,499, `static`; `last_time`
is a `clock_t`, initially `INICIAL_VALUE`). -/
structure NetState where
  prev_rx_bytes : Nat
  prev_tx_bytes : Nat
  last_time : Int
deriving Repr, DecidableEq

/-- `delta_rx` as computed at metrics.c:534: raw unsigned 64-bit
subtraction `rx_bytes - prev_rx_bytes`. -/
def bw_delta_rx (prev_rx_bytes rx_bytes : Nat) : Nat :=
  usub64 rx_bytes prev_rx_bytes

/-- `delta_tx` as computed at metrics.c:535. -/
def bw_delta_tx (prev_tx_bytes tx_bytes : Nat) : Nat :=
  usub64 tx_bytes prev_tx_bytes

/-- `get_average_bandwidth` (metrics.c:492), as a function of the saved
state, the summed rx/tx byte counters scanned this call, and the
`clock()` reading `current_time`.  `elapsed_time` is
`(current_time - last_time) / CLOCKS_PER_SEC`; the final division
`network_usage / elapsed_time` is performed unconditionally — there is
no zero-elapsed guard in the source.  A division whose divisor is zero
is modelled as `none` (at runtime the C `double` division yields an
IEEE infinity or NaN, not an error-sentinel return).  The state is
always updated before returning. -/
def get_average_bandwidth (st : NetState) (rx_bytes tx_bytes : Nat)
    (current_time : Int) : Option ℚ × NetState :=
  let elapsed_time : ℚ := ((current_time - st.last_time : Int) : ℚ) / CLOCKS_PER_SEC
  let delta_rx := bw_delta_rx st.prev_rx_bytes rx_bytes
  let delta_tx := bw_delta_tx st.prev_tx_bytes tx_bytes
  let total_bytes := uadd64 delta_rx delta_tx
  let network_usage : ℚ := ((total_bytes : Nat) : ℚ) / (ONE_KB * ONE_KB)
  let bandwidth : Option ℚ :=
    if elapsed_time = 0 then none else some (network_usage / elapsed_time)
  (bandwidth, ⟨rx_bytes, tx_bytes, current_time⟩)

/-! ## Gauge registry bridge (`src/expose_metrics.c`) -/

/-- The thirteen Prometheus gauges registered by `init_metrics`
(expose_metrics.c:355). -/
inductive GaugeName
  | cpu_usage
  | memory_usage
  | disk_usage
  | network_usage
  | bandwidth_usage
  | major_page_faults
  | minor_page_faults
  | change_context
  | total_processes
  | disk_stats
  | memory_total
  | memory_avalible
  | memory_usage_2
deriving Repr, DecidableEq

/-- The current published value of each gauge (Prometheus gauges hold a
`double`). -/
structure Gauges where
  cpu_usage : ℚ
  memory_usage : ℚ
  disk_usage : ℚ
  network_usage : ℚ
  bandwidth_usage : ℚ
  major_page_faults : ℚ
  minor_page_faults : ℚ
  change_context : ℚ
  total_processes : ℚ
  disk_stats : ℚ
  memory_total : ℚ
  memory_avalible : ℚ
  memory_usage_2 : ℚ
deriving Repr, DecidableEq

/-- Observable events of one `update_*_gauge` call: mutex acquisition and
release (`pthread_mutex_lock(&lock)` / `pthread_mutex_unlock(&lock)`),
the gauge write (`prom_gauge_set`), and the `fprintf(stderr, ...)`
warning of the else-branch. -/
inductive Ev
  | lock
  | unlock
  | set (g : GaugeName) (v : ℚ)
  | warn (g : GaugeName)
deriving Repr, DecidableEq

/-- `update_memory_avalible_gauge` (expose_metrics.c:86): publishes the
`double` reading iff `usage >= MIN_VALUE`, under lock; otherwise leaves
the gauge untouched and warns. -/
def update_memory_avalible_gauge (usage : ℚ) (g : Gauges) : Gauges × List Ev :=
  if MIN_VALUE ≤ usage then
    ({ g with memory_avalible := usage },
     [Ev.lock, Ev.set GaugeName.memory_avalible usage, Ev.unlock])
  else (g, [Ev.warn GaugeName.memory_avalible])

/-- `update_memory_total_gauge` (expose_metrics.c:104). -/
def update_memory_total_gauge (usage : ℚ) (g : Gauges) : Gauges × List Ev :=
  if MIN_VALUE ≤ usage then
    ({ g with memory_total := usage },
     [Ev.lock, Ev.set GaugeName.memory_total usage, Ev.unlock])
  else (g, [Ev.warn GaugeName.memory_total])

/-- `update_memory_2_gauge` (expose_metrics.c:122). -/
def update_memory_2_gauge (usage : ℚ) (g : Gauges) : Gauges × List Ev :=
  if MIN_VALUE ≤ usage then
    ({ g with memory_usage_2 := usage },
     [Ev.lock, Ev.set GaugeName.memory_usage_2 usage, Ev.unlock])
  else (g, [Ev.warn GaugeName.memory_usage_2])

/-- `update_disk_stats_gauge` (expose_metrics.c:140). -/
def update_disk_stats_gauge (usage : ℚ) (g : Gauges) : Gauges × List Ev :=
  if MIN_VALUE ≤ usage then
    ({ g with disk_stats := usage },
     [Ev.lock, Ev.set GaugeName.disk_stats usage, Ev.unlock])
  else (g, [Ev.warn GaugeName.disk_stats])

/-- `update_total_processes_gauge` (expose_metrics.c:158): the reader
returns `unsigned long long`; the C code stores it into
`double usage = get_total_processes();` and tests `usage >= MIN_VALUE`.
The unsigned-to-double conversion is non-negative for every input, so
the test is true for every reading, including the `ERROR_INT` sentinel
`2^64 - 1`.  (The conversion of `2^64 - 1` to `double` rounds to `2^64`;
the rounding affects neither the sign nor the publish decision, and the
published value is modelled exactly.) -/
def update_total_processes_gauge (reading : Nat) (g : Gauges) : Gauges × List Ev :=
  let usage : ℚ := (reading : ℚ)
  if MIN_VALUE ≤ usage then
    ({ g with total_processes := usage },
     [Ev.lock, Ev.set GaugeName.total_processes usage, Ev.unlock])
  else (g, [Ev.warn GaugeName.total_processes])

/-- `update_change_context_gauge` (expose_metrics.c:176): same
`double usage = get_change_context(); if (usage >= MIN_VALUE)` pattern
as `update_total_processes_gauge`. -/
def update_change_context_gauge (reading : Nat) (g : Gauges) : Gauges × List Ev :=
  let usage : ℚ := (reading : ℚ)
  if MIN_VALUE ≤ usage then
    ({ g with change_context := usage },
     [Ev.lock, Ev.set GaugeName.change_context usage, Ev.unlock])
  else (g, [Ev.warn GaugeName.change_context])

/-- `update_cpu_gauge` (expose_metrics.c:194). -/
def update_cpu_gauge (usage : ℚ) (g : Gauges) : Gauges × List Ev :=
  if MIN_VALUE ≤ usage then
    ({ g with cpu_usage := usage },
     [Ev.lock, Ev.set GaugeName.cpu_usage usage, Ev.unlock])
  else (g, [Ev.warn GaugeName.cpu_usage])

/-- `update_memory_gauge` (expose_metrics.c:212). -/
def update_memory_gauge (usage : ℚ) (g : Gauges) : Gauges × List Ev :=
  if MIN_VALUE ≤ usage then
    ({ g with memory_usage := usage },
     [Ev.lock, Ev.set GaugeName.memory_usage usage, Ev.unlock])
  else (g, [Ev.warn GaugeName.memory_usage])

/-- `update_disk_gauge` (expose_metrics.c:230). -/
def update_disk_gauge (usage : ℚ) (g : Gauges) : Gauges × List Ev :=
  if MIN_VALUE ≤ usage then
    ({ g with disk_usage := usage },
     [Ev.lock, Ev.set GaugeName.disk_usage usage, Ev.unlock])
  else (g, [Ev.warn GaugeName.disk_usage])

/-- `update_network_gauge` (expose_metrics.c:248). -/
def update_network_gauge (usage : ℚ) (g : Gauges) : Gauges × List Ev :=
  if MIN_VALUE ≤ usage then
    ({ g with network_usage := usage },
     [Ev.lock, Ev.set GaugeName.network_usage usage, Ev.unlock])
  else (g, [Ev.warn GaugeName.network_usage])

/-- `update_bandwidth_gauge` (expose_metrics.c:266). -/
def update_bandwidth_gauge (usage : ℚ) (g : Gauges) : Gauges × List Ev :=
  if MIN_VALUE ≤ usage then
    ({ g with bandwidth_usage := usage },
     [Ev.lock, Ev.set GaugeName.bandwidth_usage usage, Ev.unlock])
  else (g, [Ev.warn GaugeName.bandwidth_usage])

/-- `update_major_page_faults_gauge` (expose_metrics.c:284): here the
reading stays an `unsigned long long`
(`unsigned long long faults = get_major_page_faults();`) and the guard
`faults >= MIN_VALUE` is an unsigned comparison against `0`, true for
every value — including the `ERROR_INT` sentinel. -/
def update_major_page_faults_gauge (faults : Nat) (g : Gauges) : Gauges × List Ev :=
  if (0 : Nat) ≤ faults then
    ({ g with major_page_faults := (faults : ℚ) },
     [Ev.lock, Ev.set GaugeName.major_page_faults (faults : ℚ), Ev.unlock])
  else (g, [Ev.warn GaugeName.major_page_faults])

/-- `update_minor_page_faults_gauge` (expose_metrics.c:302): same
unsigned guard as `update_major_page_faults_gauge`. -/
def update_minor_page_faults_gauge (faults : Nat) (g : Gauges) : Gauges × List Ev :=
  if (0 : Nat) ≤ faults then
    ({ g with minor_page_faults := (faults : ℚ) },
     [Ev.lock, Ev.set GaugeName.minor_page_faults (faults : ℚ), Ev.unlock])
  else (g, [Ev.warn GaugeName.minor_page_faults])

/-! ## Reconfiguration controller (`src/json_cfg.c`) -/

/-- The four global activation flags (json_cfg.c:9-33), all `false` at
process start. -/
structure Flags where
  flag_bandwidth : Bool
  flag_cpu : Bool
  flag_disk : Bool
  flag_change : Bool
deriving Repr, DecidableEq

/-- The assignments at json_cfg.c:104-108: all four flags set to
`false` before the recognition loop runs. -/
def flagsReset : Flags := ⟨false, false, false, false⟩

/-- One iteration of the recognition loop (json_cfg.c:111-133): the
`strcmp` chain sets the matching flag, and an unrecognized name is
printed (`Métrica desconocida`) but changes no flag. -/
def recognize_metric (f : Flags) (name : String) : Flags :=
  if name = "bandwidth_usage" then { f with flag_bandwidth := true }
  else if name = "cpu_usage_percentage" then { f with flag_cpu := true }
  else if name = "disk_usage_percentage" then { f with flag_disk := true }
  else if name = "change_contexts" then { f with flag_change := true }
  else f

/-- The flag effect of a successful `load_config` call
(json_cfg.c:104-133), as a function of the flags' prior values and the
document's `metrics` field (`some names` when the field exists and is an
array of the given strings, `none` otherwise — in which case
`metrics_count = 0` and the loop body never runs). -/
def load_config_flags (old : Flags) (doc_metrics : Option (List String)) : Flags :=
  let _ := old
  (doc_metrics.getD []).foldl recognize_metric flagsReset

/-- The `sampling_interval` produced by a successful `load_config` call
(json_cfg.c:72-80), as a function of the document's `sampling_interval`
field (`some n` when the field exists and `cJSON_IsNumber` holds, with
`n` its `valueint`; `none` otherwise).  A numeric value is assigned
unchecked; only a missing or non-numeric field falls back to `1`. -/
def load_config_interval (doc_interval : Option Int) : Int :=
  match doc_interval with
  | some n => n
  | none => 1

/-! ## Sampling loop (`src/main.c`) -/

/-- The thirteen kernel stat readers, named as in `src/metrics.c`. -/
inductive Reader
  | average_bandwidth
  | change_context
  | cpu_usage
  | disk_usage
  | memory_usage
  | network_usage
  | major_page_faults
  | minor_page_faults
  | memory_avalible
  | memory_total
  | memory_usage_2
  | disk_stats
  | total_processes
deriving Repr, DecidableEq

/-- The readers invoked during one iteration of the sampling loop
(main.c:80-103), in program order: the four flag-gated updates run their
reader only when their flag is set; the remaining nine updates run
unconditionally. -/
def cycle_readers (f : Flags) : List Reader :=
  (if f.flag_bandwidth then [Reader.average_bandwidth] else []) ++
  ((if f.flag_change then [Reader.change_context] else []) ++
  ((if f.flag_cpu then [Reader.cpu_usage] else []) ++
  ((if f.flag_disk then [Reader.disk_usage] else []) ++
  [Reader.memory_usage, Reader.network_usage, Reader.major_page_faults,
   Reader.minor_page_faults, Reader.memory_avalible, Reader.memory_total,
   Reader.memory_usage_2, Reader.disk_stats, Reader.total_processes])))

/-- The values the thirteen readers return in one cycle.  `double`
readers yield `ℚ`, `unsigned long long` readers yield `Nat`.  (For the
bandwidth reader this presumes the cycle in which its division has a
nonzero divisor; its zero-divisor behaviour is analysed separately on
`get_average_bandwidth`.) -/
structure Readings where
  average_bandwidth : ℚ
  change_context : Nat
  cpu_usage : ℚ
  disk_usage : ℚ
  memory_usage : ℚ
  network_usage : ℚ
  major_page_faults : Nat
  minor_page_faults : Nat
  memory_avalible : ℚ
  memory_total : ℚ
  memory_usage_2 : ℚ
  disk_stats : ℚ
  total_processes : Nat
deriving Repr, DecidableEq

/-- One iteration of the sampling loop body (main.c:80-103): the four
gated updates run only when their flag is set, then the nine always-on
updates run, in program order.  Returns the new gauge values and the
concatenated event trace. -/
def run_cycle (f : Flags) (r : Readings) (g : Gauges) : Gauges × List Ev :=
  let s1 := if f.flag_bandwidth then update_bandwidth_gauge r.average_bandwidth g else (g, [])
  let s2 := if f.flag_change then update_change_context_gauge r.change_context s1.1 else (s1.1, [])
  let s3 := if f.flag_cpu then update_cpu_gauge r.cpu_usage s2.1 else (s2.1, [])
  let s4 := if f.flag_disk then update_disk_gauge r.disk_usage s3.1 else (s3.1, [])
  let s5 := update_memory_gauge r.memory_usage s4.1
  let s6 := update_network_gauge r.network_usage s5.1
  let s7 := update_major_page_faults_gauge r.major_page_faults s6.1
  let s8 := update_minor_page_faults_gauge r.minor_page_faults s7.1
  let s9 := update_memory_avalible_gauge r.memory_avalible s8.1
  let s10 := update_memory_total_gauge r.memory_total s9.1
  let s11 := update_memory_2_gauge r.memory_usage_2 s10.1
  let s12 := update_disk_stats_gauge r.disk_stats s11.1
  let s13 := update_total_processes_gauge r.total_processes s12.1
  (s13.1,
   s1.2 ++ (s2.2 ++ (s3.2 ++ (s4.2 ++ (s5.2 ++ (s6.2 ++ (s7.2 ++ (s8.2 ++
     (s9.2 ++ (s10.2 ++ (s11.2 ++ (s12.2 ++ s13.2))))))))))))

/-- A trace discipline: every `Ev.set` (gauge mutation) occurs as the
middle of an immediately enclosing `Ev.lock` / `Ev.unlock` pair. -/
def mutationsBracketed : List Ev → Bool
  | [] => true
  | Ev.lock :: Ev.set _ _ :: Ev.unlock :: rest => mutationsBracketed rest
  | Ev.set _ _ :: _ => false
  | _ :: rest => mutationsBracketed rest

/-! ## Arithmetic helper lemmas -/

theorem uadd64_eq_of_lt {a b : Nat} (h : a + b < W64) : uadd64 a b = a + b := by
  simp [uadd64, Nat.mod_eq_of_lt h]

theorem usub64_eq_of_le {a b : Nat} (hba : b ≤ a) (ha : a < W64) : usub64 a b = a - b := by
  unfold usub64
  rw [Nat.mod_eq_of_lt (lt_of_le_of_lt hba ha)]
  have hW : b ≤ W64 := le_of_lt (lt_of_le_of_lt hba ha)
  have hsplit : a + (W64 - b) = (a - b) + W64 := by omega
  rw [hsplit, Nat.add_mod_right, Nat.mod_eq_of_lt (by omega)]

theorem usub64_eq_of_lt {a b : Nat} (hab : a < b) (hb : b < W64) : usub64 a b = W64 - (b - a) := by
  unfold usub64
  rw [Nat.mod_eq_of_lt hb]
  have h1 : a + (W64 - b) = W64 - (b - a) := by omega
  rw [h1, Nat.mod_eq_of_lt (by omega)]

/-! ## Claim C1 -/

/-- C1 (code bug): the spec requires that a reader returning its error
sentinel causes the publish to be skipped for all thirteen gauges,
including the `unsigned long long` readers.  The nine `double` gauges do
skip (`update_cpu_gauge` at `ERROR_FLOAT` leaves the gauges untouched
and warns), but the four `unsigned long long` gauges cannot: the guard
compares an unsigned value (or its always-non-negative `double`
conversion) against `0`, which holds for every input, so the sentinel
`ERROR_INT = 2^64 - 1` is published, overwriting the previous value,
with no warning.  Shown here for `update_change_context_gauge` fed the
sentinel that `get_change_context` returns when `/proc/stat` has no
`ctxt` line, and for `update_major_page_faults_gauge`. -/
theorem C1_ull_error_sentinel_is_published :
    get_change_context none = ERROR_INT ∧
    (update_change_context_gauge (get_change_context none)
        ⟨1, 2, 3, 4, 5, 6, 7, 8, 9, 10, 11, 12, 13⟩).1.change_context = ((ERROR_INT : Nat) : ℚ) ∧
    (update_change_context_gauge (get_change_context none)
        ⟨1, 2, 3, 4, 5, 6, 7, 8, 9, 10, 11, 12, 13⟩).1.change_context ≠
      (⟨1, 2, 3, 4, 5, 6, 7, 8, 9, 10, 11, 12, 13⟩ : Gauges).change_context ∧
    (update_change_context_gauge (get_change_context none)
        ⟨1, 2, 3, 4, 5, 6, 7, 8, 9, 10, 11, 12, 13⟩).2 =
      [Ev.lock, Ev.set GaugeName.change_context ((ERROR_INT : Nat) : ℚ), Ev.unlock] ∧
    (update_major_page_faults_gauge ERROR_INT
        ⟨1, 2, 3, 4, 5, 6, 7, 8, 9, 10, 11, 12, 13⟩).1.major_page_faults = ((ERROR_INT : Nat) : ℚ) ∧
    (update_cpu_gauge ERROR_FLOAT ⟨1, 2, 3, 4, 5, 6, 7, 8, 9, 10, 11, 12, 13⟩) =
      (⟨1, 2, 3, 4, 5, 6, 7, 8, 9, 10, 11, 12, 13⟩, [Ev.warn GaugeName.cpu_usage]) := by
  refine ⟨rfl, ?_, ?_, ?_, ?_, ?_⟩ <;>
    norm_num [get_change_context, update_change_context_gauge,
      update_major_page_faults_gauge, update_cpu_gauge, ERROR_INT, ERROR_FLOAT,
      MIN_VALUE, INICIAL_VALUE, W64]

/-! ## Claim C2 -/

/-- C2 (counterexample): the claim states that when the current
cumulative counter sample is below the previous one the computed delta
is clamped to zero.  At previous sector counter `10` and current `5`,
the delta computed by `get_disk_usage` (and the rx-byte delta computed
by `get_average_bandwidth`) is the unsigned wraparound value
`2^64 - 5`, not `0`. -/
theorem C2_counterexample_reset_not_clamped :
    disk_delta_reads 10 5 = W64 - 5 ∧
    disk_delta_reads 10 5 ≠ 0 ∧
    bw_delta_rx 10 5 = W64 - 5 ∧
    bw_delta_rx 10 5 ≠ 0 := by
  refine ⟨?_, ?_, ?_, ?_⟩ <;> decide

/-- C2 (amended): for every pair of a previous and a current cumulative
counter sample held by a rate/delta tracker (disk sectors in
`get_disk_usage`, rx/tx bytes in `get_average_bandwidth`), the computed
delta equals `current - previous` when `current ≥ previous`; when
`current < previous` (counter reset) it is NOT clamped to zero — the
unsigned subtraction wraps modulo `2^64` and produces the huge value
`2^64 - (previous - current)`, which is never zero. -/
theorem C2_counter_delta_wraps_modulo (prev cur : Nat)
    (hp : prev < W64) (hc : cur < W64) :
    (prev ≤ cur →
      disk_delta_reads prev cur = cur - prev ∧
      disk_delta_writes prev cur = cur - prev ∧
      bw_delta_rx prev cur = cur - prev ∧
      bw_delta_tx prev cur = cur - prev) ∧
    (cur < prev →
      disk_delta_reads prev cur = W64 - (prev - cur) ∧
      bw_delta_rx prev cur = W64 - (prev - cur) ∧
      disk_delta_reads prev cur ≠ 0) := by
  constructor
  · intro h
    refine ⟨?_, ?_, ?_, ?_⟩ <;>
      simp [disk_delta_reads, disk_delta_writes, bw_delta_rx, bw_delta_tx,
        usub64_eq_of_le h hc]
  · intro h
    have hz : W64 - (prev - cur) ≠ 0 := by omega
    refine ⟨?_, ?_, ?_⟩ <;>
      simp [disk_delta_reads, bw_delta_rx, usub64_eq_of_lt h hp, hz]

/-- C2 witness: the amended theorem applied at concrete inputs, one per
branch. -/
theorem C2_witness :
    disk_delta_reads 3 10 = 7 ∧ disk_delta_reads 10 3 = W64 - 7 :=
  ⟨((C2_counter_delta_wraps_modulo 3 10 (by decide) (by decide)).1 (by decide)).1,
   ((C2_counter_delta_wraps_modulo 10 3 (by decide) (by decide)).2 (by decide)).1⟩

/-! ## Claim C6 -/

/-- C6 (counterexample): the claim states that an invalid
`sampling_interval` (including non-positive values) makes `load_config`
fail safe to 1 second.  A document whose `sampling_interval` field is
the number `0` (or `-5`) is numeric, so `cJSON_IsNumber` holds and the
value is assigned unchecked: the produced interval is `0` (resp. `-5`),
not `1`, and not positive. -/
theorem C6_counterexample_zero_interval :
    load_config_interval (some 0) = 0 ∧
    load_config_interval (some 0) ≠ 1 ∧
    ¬ (0 < load_config_interval (some 0)) ∧
    load_config_interval (some (-5)) = -5 := by
  refine ⟨rfl, ?_, ?_, rfl⟩ <;> decide

/-- C6 (amended): `load_config` falls back to the 1-second default
exactly when the `sampling_interval` field is absent or non-numeric; a
numeric field value is passed through unvalidated, with no positivity or
range check, so the produced interval is not guaranteed positive. -/
theorem C6_interval_default_only_when_missing (n : Int) :
    load_config_interval none = 1 ∧ load_config_interval (some n) = n :=
  ⟨rfl, rfl⟩

/-! ## Claim C9 -/

/-- C9: the labeled-counter readers conflate a genuine zero with a
missing label.  When the sought label is present with value `0`,
`get_change_context`, `get_total_processes` and `get_disk_stats` return
their error sentinel exactly as when the label is absent
(`get_disk_stats` errors whenever the `sda` read count alone is `0`,
for every write count `w`); conversely when the label is absent but the
file opens, `get_minor_page_faults` and `get_major_page_faults` return
`0`, which is not the error sentinel. -/
theorem C9_zero_value_conflated_with_missing (w : Nat) :
    (get_change_context (some 0) = ERROR_INT ∧
     get_change_context none = ERROR_INT) ∧
    (get_total_processes (some 0) = ERROR_INT ∧
     get_total_processes none = ERROR_INT) ∧
    (get_disk_stats (some (0, w)) = ERROR_FLOAT ∧
     get_disk_stats none = ERROR_FLOAT) ∧
    (get_minor_page_faults none = 0 ∧
     get_major_page_faults none = 0 ∧
     (0 : Nat) ≠ ERROR_INT) := by
  refine ⟨⟨rfl, rfl⟩, ⟨rfl, rfl⟩, ⟨?_, rfl⟩, rfl, rfl, ?_⟩
  · simp [get_disk_stats, INICIAL_VALUE]
  · decide

/-! ## Claim C3 -/

/-- C3 (counterexample): the claim states that the MB/s division in
`get_average_bandwidth` is guarded and that at zero elapsed time the
function returns a well-defined result instead of dividing by that
duration.  At the state `⟨0, 0, 0⟩` with `clock()` also reading `0`
(elapsed time `0`), the function reaches the division by the zero
duration (modelled `none`: at runtime an IEEE infinity/NaN) and does not
return the error sentinel. -/
theorem C3_counterexample_zero_elapsed :
    (get_average_bandwidth ⟨0, 0, 0⟩ 1048576 1048576 0).1 = none ∧
    (get_average_bandwidth ⟨0, 0, 0⟩ 1048576 1048576 0).1 ≠ some ERROR_FLOAT := by
  have h1 : (get_average_bandwidth ⟨0, 0, 0⟩ 1048576 1048576 0).1 = none := by
    norm_num [get_average_bandwidth, CLOCKS_PER_SEC]
  refine ⟨h1, ?_⟩
  rw [h1]
  simp

/-- C3 (amended): `get_average_bandwidth` computes
`elapsed_time = (current_time - last_time) / CLOCKS_PER_SEC` and divides
by it unconditionally: when the elapsed time is nonzero the result is
the delta in megabytes divided by the elapsed time, and when it is zero
(`current_time = last_time`, e.g. a first call with a zero `clock()`
reading) the division by zero is performed — there is no guard and no
error-sentinel or degenerate-rate return on that path. -/
theorem C3_bandwidth_division_unguarded (st : NetState) (rx tx : Nat) (t : Int) :
    (t = st.last_time → (get_average_bandwidth st rx tx t).1 = none) ∧
    (t ≠ st.last_time →
      (get_average_bandwidth st rx tx t).1 =
        some ((((uadd64 (bw_delta_rx st.prev_rx_bytes rx)
              (bw_delta_tx st.prev_tx_bytes tx) : Nat) : ℚ) / (ONE_KB * ONE_KB)) /
          (((t - st.last_time : Int) : ℚ) / CLOCKS_PER_SEC))) := by
  constructor
  · intro h
    simp [get_average_bandwidth, h]
  · intro h
    have h2 : ((t : ℚ) - (st.last_time : ℚ)) ≠ 0 := sub_ne_zero_of_ne (by exact_mod_cast h)
    have h3 : (CLOCKS_PER_SEC : ℚ) ≠ 0 := by norm_num [CLOCKS_PER_SEC]
    simp [get_average_bandwidth, h2, h3]

/-- C3 witness: the amended theorem applied at a concrete input with
nonzero elapsed time (1 second, 2 MiB received): 2 MB/s. -/
theorem C3_witness :
    (get_average_bandwidth ⟨0, 0, 0⟩ 2097152 0 1000000).1 = some 2 := by
  have h := (C3_bandwidth_division_unguarded ⟨0, 0, 0⟩ 2097152 0 1000000).2 (by decide)
  rw [h]
  norm_num [uadd64, bw_delta_rx, bw_delta_tx, usub64, W64, ONE_KB, CLOCKS_PER_SEC]

/-! ## Claim C4 -/

/-- C4: for every pair of previous and current CPU jiffy samples
(cumulative, hence componentwise monotone, with the current total below
`2^64`), `get_cpu_usage` returns
`100 * (total_delta - idle_delta) / total_delta`, where `total_delta`
and `idle_delta` are the differences of total and idle+iowait jiffies
between the two samples, and returns the error sentinel `-1.0` when
`total_delta = 0` instead of dividing by zero. -/
theorem C4_cpu_usage_formula (st : CpuState)
    (user nice system idle iowait irq softirq steal : Nat)
    (h1 : st.prev_user ≤ user) (h2 : st.prev_nice ≤ nice)
    (h3 : st.prev_system ≤ system) (h4 : st.prev_idle ≤ idle)
    (h5 : st.prev_iowait ≤ iowait) (h6 : st.prev_irq ≤ irq)
    (h7 : st.prev_softirq ≤ softirq) (h8 : st.prev_steal ≤ steal)
    (hW : user + nice + system + idle + iowait + irq + softirq + steal < W64) :
    ((user + nice + system + idle + iowait + irq + softirq + steal)
        - (st.prev_user + st.prev_nice + st.prev_system + st.prev_idle
            + st.prev_iowait + st.prev_irq + st.prev_softirq + st.prev_steal) = 0 →
      (get_cpu_usage st user nice system idle iowait irq softirq steal).1 = ERROR_FLOAT) ∧
    ((user + nice + system + idle + iowait + irq + softirq + steal)
        - (st.prev_user + st.prev_nice + st.prev_system + st.prev_idle
            + st.prev_iowait + st.prev_irq + st.prev_softirq + st.prev_steal) ≠ 0 →
      (get_cpu_usage st user nice system idle iowait irq softirq steal).1 =
        100 * (((((user + nice + system + idle + iowait + irq + softirq + steal)
              - (st.prev_user + st.prev_nice + st.prev_system + st.prev_idle
                  + st.prev_iowait + st.prev_irq + st.prev_softirq + st.prev_steal) : Nat) : ℚ)
            - (((idle + iowait) - (st.prev_idle + st.prev_iowait) : Nat) : ℚ)) /
          (((user + nice + system + idle + iowait + irq + softirq + steal)
              - (st.prev_user + st.prev_nice + st.prev_system + st.prev_idle
                  + st.prev_iowait + st.prev_irq + st.prev_softirq + st.prev_steal) : Nat) : ℚ))) := by
  have e1 : uadd64 st.prev_idle st.prev_iowait = st.prev_idle + st.prev_iowait :=
    uadd64_eq_of_lt (by omega)
  have e2 : uadd64 idle iowait = idle + iowait := uadd64_eq_of_lt (by omega)
  have f1 : uadd64 st.prev_user st.prev_nice = st.prev_user + st.prev_nice :=
    uadd64_eq_of_lt (by omega)
  have f2 : uadd64 (st.prev_user + st.prev_nice) st.prev_system
      = st.prev_user + st.prev_nice + st.prev_system := uadd64_eq_of_lt (by omega)
  have f3 : uadd64 (st.prev_user + st.prev_nice + st.prev_system) st.prev_irq
      = st.prev_user + st.prev_nice + st.prev_system + st.prev_irq :=
    uadd64_eq_of_lt (by omega)
  have f4 : uadd64 (st.prev_user + st.prev_nice + st.prev_system + st.prev_irq)
        st.prev_softirq
      = st.prev_user + st.prev_nice + st.prev_system + st.prev_irq + st.prev_softirq :=
    uadd64_eq_of_lt (by omega)
  have f5 : uadd64 (st.prev_user + st.prev_nice + st.prev_system + st.prev_irq
        + st.prev_softirq) st.prev_steal
      = st.prev_user + st.prev_nice + st.prev_system + st.prev_irq + st.prev_softirq
        + st.prev_steal := uadd64_eq_of_lt (by omega)
  have g1 : uadd64 user nice = user + nice := uadd64_eq_of_lt (by omega)
  have g2 : uadd64 (user + nice) system = user + nice + system := uadd64_eq_of_lt (by omega)
  have g3 : uadd64 (user + nice + system) irq = user + nice + system + irq :=
    uadd64_eq_of_lt (by omega)
  have g4 : uadd64 (user + nice + system + irq) softirq
      = user + nice + system + irq + softirq := uadd64_eq_of_lt (by omega)
  have g5 : uadd64 (user + nice + system + irq + softirq) steal
      = user + nice + system + irq + softirq + steal := uadd64_eq_of_lt (by omega)
  have t1 : uadd64 (st.prev_idle + st.prev_iowait)
        (st.prev_user + st.prev_nice + st.prev_system + st.prev_irq + st.prev_softirq
          + st.prev_steal)
      = st.prev_idle + st.prev_iowait
        + (st.prev_user + st.prev_nice + st.prev_system + st.prev_irq + st.prev_softirq
          + st.prev_steal) := uadd64_eq_of_lt (by omega)
  have t2 : uadd64 (idle + iowait) (user + nice + system + irq + softirq + steal)
      = idle + iowait + (user + nice + system + irq + softirq + steal) :=
    uadd64_eq_of_lt (by omega)
  have d1 : usub64 (idle + iowait + (user + nice + system + irq + softirq + steal))
        (st.prev_idle + st.prev_iowait
          + (st.prev_user + st.prev_nice + st.prev_system + st.prev_irq + st.prev_softirq
            + st.prev_steal))
      = (idle + iowait + (user + nice + system + irq + softirq + steal))
        - (st.prev_idle + st.prev_iowait
          + (st.prev_user + st.prev_nice + st.prev_system + st.prev_irq + st.prev_softirq
            + st.prev_steal)) := usub64_eq_of_le (by omega) (by omega)
  have d2 : usub64 (idle + iowait) (st.prev_idle + st.prev_iowait)
      = (idle + iowait) - (st.prev_idle + st.prev_iowait) :=
    usub64_eq_of_le (by omega) (by omega)
  have key : (idle + iowait + (user + nice + system + irq + softirq + steal))
        - (st.prev_idle + st.prev_iowait
          + (st.prev_user + st.prev_nice + st.prev_system + st.prev_irq + st.prev_softirq
            + st.prev_steal))
      = (user + nice + system + idle + iowait + irq + softirq + steal)
        - (st.prev_user + st.prev_nice + st.prev_system + st.prev_idle
            + st.prev_iowait + st.prev_irq + st.prev_softirq + st.prev_steal) := by
    omega
  have d3 : usub64
        ((user + nice + system + idle + iowait + irq + softirq + steal)
          - (st.prev_user + st.prev_nice + st.prev_system + st.prev_idle
              + st.prev_iowait + st.prev_irq + st.prev_softirq + st.prev_steal))
        ((idle + iowait) - (st.prev_idle + st.prev_iowait))
      = ((user + nice + system + idle + iowait + irq + softirq + steal)
          - (st.prev_user + st.prev_nice + st.prev_system + st.prev_idle
              + st.prev_iowait + st.prev_irq + st.prev_softirq + st.prev_steal))
        - ((idle + iowait) - (st.prev_idle + st.prev_iowait)) :=
    usub64_eq_of_le (by omega) (by omega)
  simp only [get_cpu_usage, e1, e2, f1, f2, f3, f4, f5, g1, g2, g3, g4, g5, t1, t2,
    d1, d2, key, d3, INICIAL_VALUE]
  constructor
  · intro h0
    rw [if_pos h0]
  · intro h0
    rw [if_neg h0]
    rw [Nat.cast_sub (by omega)]
    ring

/-- C4 witness: the claimed concrete sample pair — previous totals
`{user:100, idle:100}` and current `{user:200, idle:100}`, all else
zero — yields exactly 100.0. -/
theorem C4_witness :
    (get_cpu_usage ⟨100, 0, 0, 100, 0, 0, 0, 0⟩ 200 0 0 100 0 0 0 0).1 = 100 := by
  have h := (C4_cpu_usage_formula ⟨100, 0, 0, 100, 0, 0, 0, 0⟩ 200 0 0 100 0 0 0 0
    (by decide) (by decide) (by decide) (by decide) (by decide) (by decide)
    (by decide) (by decide) (by decide)).2 (by decide)
  rw [h]
  norm_num

/-! ## Claim C8 -/

/-- C8 (counterexample): the claim states that whenever `/proc/meminfo`
provides both `MemTotal` and `MemAvailable`, `get_memory_usage` returns
`100 * (MemTotal - MemAvailable) / MemTotal`.  With both fields provided
as `MemTotal: 1000` and `MemAvailable: 0`, the scanned available value
`0` is conflated with the missing-field sentinel and the function
returns `-1.0`, not the `100.0` the formula gives. -/
theorem C8_counterexample_zero_available :
    get_memory_usage (some 1000) (some 0) = ERROR_FLOAT ∧
    get_memory_usage (some 1000) (some 0) ≠ 100 * (((1000 : ℚ) - 0) / 1000) := by
  have h1 : get_memory_usage (some 1000) (some 0) = ERROR_FLOAT := by
    simp [get_memory_usage, INICIAL_VALUE]
  refine ⟨h1, ?_⟩
  rw [h1]
  norm_num [ERROR_FLOAT]

/-- C8 (amended): whenever `/proc/meminfo` provides `MemTotal` and
`MemAvailable` with nonzero values (and `MemAvailable ≤ MemTotal`),
`get_memory_usage` returns `100 * (MemTotal - MemAvailable) / MemTotal`;
in particular total `1000` and available `400` yield exactly `60.0`.  It
returns the error sentinel `-1.0` when either labeled field is missing —
or when either scanned value is zero, zero being indistinguishable from
the missing-field sentinel. -/
theorem C8_memory_usage_formula (total avail : Nat)
    (ht : 0 < total) (ha : 0 < avail) (hat : avail ≤ total) (hW : total < W64) :
    get_memory_usage (some total) (some avail)
        = 100 * (((total : ℚ) - (avail : ℚ)) / (total : ℚ)) ∧
    get_memory_usage (some 1000) (some 400) = 60 ∧
    get_memory_usage none (some avail) = ERROR_FLOAT ∧
    get_memory_usage (some total) none = ERROR_FLOAT := by
  refine ⟨?_, ?_, ?_, ?_⟩
  · simp only [get_memory_usage, Option.getD_some, INICIAL_VALUE]
    rw [if_neg (by omega), usub64_eq_of_le hat hW, Nat.cast_sub hat]
    ring
  · simp only [get_memory_usage, Option.getD_some, INICIAL_VALUE]
    rw [if_neg (by norm_num), show usub64 1000 400 = 600 from by decide]
    norm_num
  · simp [get_memory_usage, INICIAL_VALUE]
  · simp [get_memory_usage, INICIAL_VALUE]

/-- C8 witness: the amended theorem applied at total `1000`,
available `400`. -/
theorem C8_witness : get_memory_usage (some 1000) (some 400) = 60 :=
  (C8_memory_usage_formula 1000 400 (by decide) (by decide) (by decide)
    (by decide)).2.1

/-! ## Claim C5 -/

theorem recognize_metric_bandwidth (f : Flags) (a : String) :
    ((recognize_metric f a).flag_bandwidth = true) ↔
      (f.flag_bandwidth = true ∨ a = "bandwidth_usage") := by
  unfold recognize_metric
  by_cases h1 : a = "bandwidth_usage" <;> by_cases h2 : a = "cpu_usage_percentage" <;>
    by_cases h3 : a = "disk_usage_percentage" <;> by_cases h4 : a = "change_contexts" <;>
    simp [h1, h2, h3, h4]

theorem recognize_metric_cpu (f : Flags) (a : String) :
    ((recognize_metric f a).flag_cpu = true) ↔
      (f.flag_cpu = true ∨ a = "cpu_usage_percentage") := by
  unfold recognize_metric
  by_cases h1 : a = "bandwidth_usage" <;> by_cases h2 : a = "cpu_usage_percentage" <;>
    by_cases h3 : a = "disk_usage_percentage" <;> by_cases h4 : a = "change_contexts" <;>
    simp [h1, h2, h3, h4]

theorem recognize_metric_disk (f : Flags) (a : String) :
    ((recognize_metric f a).flag_disk = true) ↔
      (f.flag_disk = true ∨ a = "disk_usage_percentage") := by
  unfold recognize_metric
  by_cases h1 : a = "bandwidth_usage" <;> by_cases h2 : a = "cpu_usage_percentage" <;>
    by_cases h3 : a = "disk_usage_percentage" <;> by_cases h4 : a = "change_contexts" <;>
    simp [h1, h2, h3, h4]

theorem recognize_metric_change (f : Flags) (a : String) :
    ((recognize_metric f a).flag_change = true) ↔
      (f.flag_change = true ∨ a = "change_contexts") := by
  unfold recognize_metric
  by_cases h1 : a = "bandwidth_usage" <;> by_cases h2 : a = "cpu_usage_percentage" <;>
    by_cases h3 : a = "disk_usage_percentage" <;> by_cases h4 : a = "change_contexts" <;>
    simp [h1, h2, h3, h4]

theorem foldl_recognize_bandwidth (l : List String) (f : Flags) :
    ((l.foldl recognize_metric f).flag_bandwidth = true) ↔
      (f.flag_bandwidth = true ∨ "bandwidth_usage" ∈ l) := by
  induction l generalizing f with
  | nil => simp
  | cons a l ih =>
    rw [List.foldl_cons, ih, recognize_metric_bandwidth, List.mem_cons]
    constructor
    · rintro ((h | h) | h)
      · exact Or.inl h
      · exact Or.inr (Or.inl h.symm)
      · exact Or.inr (Or.inr h)
    · rintro (h | h | h)
      · exact Or.inl (Or.inl h)
      · exact Or.inl (Or.inr h.symm)
      · exact Or.inr h

theorem foldl_recognize_cpu (l : List String) (f : Flags) :
    ((l.foldl recognize_metric f).flag_cpu = true) ↔
      (f.flag_cpu = true ∨ "cpu_usage_percentage" ∈ l) := by
  induction l generalizing f with
  | nil => simp
  | cons a l ih =>
    rw [List.foldl_cons, ih, recognize_metric_cpu, List.mem_cons]
    constructor
    · rintro ((h | h) | h)
      · exact Or.inl h
      · exact Or.inr (Or.inl h.symm)
      · exact Or.inr (Or.inr h)
    · rintro (h | h | h)
      · exact Or.inl (Or.inl h)
      · exact Or.inl (Or.inr h.symm)
      · exact Or.inr h

theorem foldl_recognize_disk (l : List String) (f : Flags) :
    ((l.foldl recognize_metric f).flag_disk = true) ↔
      (f.flag_disk = true ∨ "disk_usage_percentage" ∈ l) := by
  induction l generalizing f with
  | nil => simp
  | cons a l ih =>
    rw [List.foldl_cons, ih, recognize_metric_disk, List.mem_cons]
    constructor
    · rintro ((h | h) | h)
      · exact Or.inl h
      · exact Or.inr (Or.inl h.symm)
      · exact Or.inr (Or.inr h)
    · rintro (h | h | h)
      · exact Or.inl (Or.inl h)
      · exact Or.inl (Or.inr h.symm)
      · exact Or.inr h

theorem foldl_recognize_change (l : List String) (f : Flags) :
    ((l.foldl recognize_metric f).flag_change = true) ↔
      (f.flag_change = true ∨ "change_contexts" ∈ l) := by
  induction l generalizing f with
  | nil => simp
  | cons a l ih =>
    rw [List.foldl_cons, ih, recognize_metric_change, List.mem_cons]
    constructor
    · rintro ((h | h) | h)
      · exact Or.inl h
      · exact Or.inr (Or.inl h.symm)
      · exact Or.inr (Or.inr h)
    · rintro (h | h | h)
      · exact Or.inl (Or.inl h)
      · exact Or.inl (Or.inr h.symm)
      · exact Or.inr h

/-- C5: for every successfully parsed configuration document,
`load_config` first resets all four activation flags to `false` and then
sets each flag exactly when its recognized metric name appears in the
document's metrics array, so the resulting flags depend only on the
document and not on their prior values; a document with
`metrics: ["cpu_usage_percentage"]` enables only the CPU flag, a reload
with `metrics: []` disables everything again, and an unrecognized name
changes no flag. -/
theorem C5_load_config_reset_then_set (old old2 : Flags) (doc : Option (List String))
    (metrics : List String) (name : String)
    (hname : name ≠ "bandwidth_usage" ∧ name ≠ "cpu_usage_percentage" ∧
      name ≠ "disk_usage_percentage" ∧ name ≠ "change_contexts") :
    (load_config_flags old doc = load_config_flags old2 doc) ∧
    ((load_config_flags old (some metrics)).flag_bandwidth = true ↔
      "bandwidth_usage" ∈ metrics) ∧
    ((load_config_flags old (some metrics)).flag_cpu = true ↔
      "cpu_usage_percentage" ∈ metrics) ∧
    ((load_config_flags old (some metrics)).flag_disk = true ↔
      "disk_usage_percentage" ∈ metrics) ∧
    ((load_config_flags old (some metrics)).flag_change = true ↔
      "change_contexts" ∈ metrics) ∧
    (load_config_flags old (some ["cpu_usage_percentage"]) = ⟨false, true, false, false⟩) ∧
    (load_config_flags old (some []) = flagsReset) ∧
    (recognize_metric old name = old) := by
  obtain ⟨hn1, hn2, hn3, hn4⟩ := hname
  refine ⟨rfl, ?_, ?_, ?_, ?_, ?_, rfl, ?_⟩
  · simpa [load_config_flags, flagsReset] using
      foldl_recognize_bandwidth metrics flagsReset
  · simpa [load_config_flags, flagsReset] using
      foldl_recognize_cpu metrics flagsReset
  · simpa [load_config_flags, flagsReset] using
      foldl_recognize_disk metrics flagsReset
  · simpa [load_config_flags, flagsReset] using
      foldl_recognize_change metrics flagsReset
  · simp [load_config_flags, flagsReset, recognize_metric]
  · unfold recognize_metric
    rw [if_neg hn1, if_neg hn2, if_neg hn3, if_neg hn4]

/-- C5 witness: the theorem applied at concrete prior flags (all on), a
concrete document, and the unrecognized name `memory_usage`. -/
theorem C5_witness :
    (load_config_flags ⟨true, true, true, true⟩ (some ["cpu_usage_percentage"])
      = ⟨false, true, false, false⟩) ∧
    (recognize_metric ⟨true, true, true, true⟩ "memory_usage" = ⟨true, true, true, true⟩) := by
  have h := C5_load_config_reset_then_set ⟨true, true, true, true⟩
    ⟨false, false, false, false⟩ (some []) [] "memory_usage"
    ⟨by decide, by decide, by decide, by decide⟩
  exact ⟨h.2.2.2.2.2.1, h.2.2.2.2.2.2.2⟩

/-! ## Claim C7 -/

/-- C7: in every iteration of the sampling loop, each of the four gated
metrics (bandwidth, cpu, disk, change-context) whose activation flag is
off is skipped entirely — its reader is not invoked and its gauge keeps
the previously published value, not reset to zero — while the always-on
metrics (memory usage/total/available/alternate, network usage, major
and minor page faults, disk stats, total processes) are read on every
cycle regardless of any flag and published (given in-domain readings for
the `double`-valued ones; the unsigned ones publish unconditionally). -/
theorem C7_gated_skipped_always_on_sampled (f : Flags) (r : Readings) (g : Gauges)
    (hm : 0 ≤ r.memory_usage) (hn : 0 ≤ r.network_usage)
    (hma : 0 ≤ r.memory_avalible) (hmt : 0 ≤ r.memory_total)
    (hm2 : 0 ≤ r.memory_usage_2) (hds : 0 ≤ r.disk_stats) :
    (f.flag_bandwidth = false → Reader.average_bandwidth ∉ cycle_readers f ∧
      (run_cycle f r g).1.bandwidth_usage = g.bandwidth_usage) ∧
    (f.flag_change = false → Reader.change_context ∉ cycle_readers f ∧
      (run_cycle f r g).1.change_context = g.change_context) ∧
    (f.flag_cpu = false → Reader.cpu_usage ∉ cycle_readers f ∧
      (run_cycle f r g).1.cpu_usage = g.cpu_usage) ∧
    (f.flag_disk = false → Reader.disk_usage ∉ cycle_readers f ∧
      (run_cycle f r g).1.disk_usage = g.disk_usage) ∧
    (Reader.memory_usage ∈ cycle_readers f ∧
      (run_cycle f r g).1.memory_usage = r.memory_usage) ∧
    (Reader.network_usage ∈ cycle_readers f ∧
      (run_cycle f r g).1.network_usage = r.network_usage) ∧
    (Reader.major_page_faults ∈ cycle_readers f ∧
      (run_cycle f r g).1.major_page_faults = (r.major_page_faults : ℚ)) ∧
    (Reader.minor_page_faults ∈ cycle_readers f ∧
      (run_cycle f r g).1.minor_page_faults = (r.minor_page_faults : ℚ)) ∧
    (Reader.memory_avalible ∈ cycle_readers f ∧
      (run_cycle f r g).1.memory_avalible = r.memory_avalible) ∧
    (Reader.memory_total ∈ cycle_readers f ∧
      (run_cycle f r g).1.memory_total = r.memory_total) ∧
    (Reader.memory_usage_2 ∈ cycle_readers f ∧
      (run_cycle f r g).1.memory_usage_2 = r.memory_usage_2) ∧
    (Reader.disk_stats ∈ cycle_readers f ∧
      (run_cycle f r g).1.disk_stats = r.disk_stats) ∧
    (Reader.total_processes ∈ cycle_readers f ∧
      (run_cycle f r g).1.total_processes = (r.total_processes : ℚ)) := by
  obtain ⟨fb, fc, fd, fch⟩ := f
  cases fb <;> cases fc <;> cases fd <;> cases fch <;>
    simp [run_cycle, cycle_readers, MIN_VALUE, hm, hn, hma, hmt, hm2, hds,
      update_bandwidth_gauge, update_change_context_gauge, update_cpu_gauge,
      update_disk_gauge, update_memory_gauge, update_network_gauge,
      update_major_page_faults_gauge, update_minor_page_faults_gauge,
      update_memory_avalible_gauge, update_memory_total_gauge,
      update_memory_2_gauge, update_disk_stats_gauge,
      update_total_processes_gauge] <;>
    split_ifs <;> simp

/-- C7 witness: with all four flags off and all-zero readings, the CPU
reader is not in the cycle's reader list, the CPU gauge keeps its
previous value, and the always-on memory gauge is published. -/
theorem C7_witness :
    Reader.cpu_usage ∉ cycle_readers ⟨false, false, false, false⟩ ∧
    (run_cycle ⟨false, false, false, false⟩ ⟨0, 0, 0, 0, 0, 0, 0, 0, 0, 0, 0, 0, 0⟩
        ⟨1, 2, 3, 4, 5, 6, 7, 8, 9, 10, 11, 12, 13⟩).1.cpu_usage = 1 ∧
    (run_cycle ⟨false, false, false, false⟩ ⟨0, 0, 0, 0, 0, 0, 0, 0, 0, 0, 0, 0, 0⟩
        ⟨1, 2, 3, 4, 5, 6, 7, 8, 9, 10, 11, 12, 13⟩).1.memory_usage = 0 := by
  have h := C7_gated_skipped_always_on_sampled ⟨false, false, false, false⟩
    ⟨0, 0, 0, 0, 0, 0, 0, 0, 0, 0, 0, 0, 0⟩ ⟨1, 2, 3, 4, 5, 6, 7, 8, 9, 10, 11, 12, 13⟩
    (by norm_num) (by norm_num) (by norm_num) (by norm_num) (by norm_num) (by norm_num)
  exact ⟨(h.2.2.1 rfl).1, (h.2.2.1 rfl).2, (h.2.2.2.2.1).2⟩

/-! ## Claim C10 -/

theorem mutationsBracketed_set_block (gn : GaugeName) (v : ℚ) (rest : List Ev) :
    mutationsBracketed (Ev.lock :: Ev.set gn v :: Ev.unlock :: rest)
      = mutationsBracketed rest := rfl

theorem mutationsBracketed_warn_cons (gn : GaugeName) (rest : List Ev) :
    mutationsBracketed (Ev.warn gn :: rest) = mutationsBracketed rest := rfl

theorem mb_update_bandwidth (u : ℚ) (g : Gauges) (rest : List Ev) :
    mutationsBracketed ((update_bandwidth_gauge u g).2 ++ rest) = mutationsBracketed rest := by
  unfold update_bandwidth_gauge
  split <;> simp [mutationsBracketed_set_block, mutationsBracketed_warn_cons]

theorem mb_update_change_context (u : Nat) (g : Gauges) (rest : List Ev) :
    mutationsBracketed ((update_change_context_gauge u g).2 ++ rest) = mutationsBracketed rest := by
  simp only [update_change_context_gauge]
  split <;> simp [mutationsBracketed_set_block, mutationsBracketed_warn_cons]

theorem mb_update_cpu (u : ℚ) (g : Gauges) (rest : List Ev) :
    mutationsBracketed ((update_cpu_gauge u g).2 ++ rest) = mutationsBracketed rest := by
  unfold update_cpu_gauge
  split <;> simp [mutationsBracketed_set_block, mutationsBracketed_warn_cons]

theorem mb_update_disk (u : ℚ) (g : Gauges) (rest : List Ev) :
    mutationsBracketed ((update_disk_gauge u g).2 ++ rest) = mutationsBracketed rest := by
  unfold update_disk_gauge
  split <;> simp [mutationsBracketed_set_block, mutationsBracketed_warn_cons]

theorem mb_update_memory (u : ℚ) (g : Gauges) (rest : List Ev) :
    mutationsBracketed ((update_memory_gauge u g).2 ++ rest) = mutationsBracketed rest := by
  unfold update_memory_gauge
  split <;> simp [mutationsBracketed_set_block, mutationsBracketed_warn_cons]

theorem mb_update_network (u : ℚ) (g : Gauges) (rest : List Ev) :
    mutationsBracketed ((update_network_gauge u g).2 ++ rest) = mutationsBracketed rest := by
  unfold update_network_gauge
  split <;> simp [mutationsBracketed_set_block, mutationsBracketed_warn_cons]

theorem mb_update_major (u : Nat) (g : Gauges) (rest : List Ev) :
    mutationsBracketed ((update_major_page_faults_gauge u g).2 ++ rest)
      = mutationsBracketed rest := by
  unfold update_major_page_faults_gauge
  split <;> simp [mutationsBracketed_set_block, mutationsBracketed_warn_cons]

theorem mb_update_minor (u : Nat) (g : Gauges) (rest : List Ev) :
    mutationsBracketed ((update_minor_page_faults_gauge u g).2 ++ rest)
      = mutationsBracketed rest := by
  unfold update_minor_page_faults_gauge
  split <;> simp [mutationsBracketed_set_block, mutationsBracketed_warn_cons]

theorem mb_update_memory_avalible (u : ℚ) (g : Gauges) (rest : List Ev) :
    mutationsBracketed ((update_memory_avalible_gauge u g).2 ++ rest)
      = mutationsBracketed rest := by
  unfold update_memory_avalible_gauge
  split <;> simp [mutationsBracketed_set_block, mutationsBracketed_warn_cons]

theorem mb_update_memory_total (u : ℚ) (g : Gauges) (rest : List Ev) :
    mutationsBracketed ((update_memory_total_gauge u g).2 ++ rest)
      = mutationsBracketed rest := by
  unfold update_memory_total_gauge
  split <;> simp [mutationsBracketed_set_block, mutationsBracketed_warn_cons]

theorem mb_update_memory_2 (u : ℚ) (g : Gauges) (rest : List Ev) :
    mutationsBracketed ((update_memory_2_gauge u g).2 ++ rest) = mutationsBracketed rest := by
  unfold update_memory_2_gauge
  split <;> simp [mutationsBracketed_set_block, mutationsBracketed_warn_cons]

theorem mb_update_disk_stats (u : ℚ) (g : Gauges) (rest : List Ev) :
    mutationsBracketed ((update_disk_stats_gauge u g).2 ++ rest) = mutationsBracketed rest := by
  unfold update_disk_stats_gauge
  split <;> simp [mutationsBracketed_set_block, mutationsBracketed_warn_cons]

theorem mb_update_total_processes_closed (u : Nat) (g : Gauges) :
    mutationsBracketed (update_total_processes_gauge u g).2 = true := by
  simp only [update_total_processes_gauge]
  split <;> rfl

theorem mb_gated (b : Bool) (p : Gauges × List Ev) (g : Gauges) (rest : List Ev)
    (hp : mutationsBracketed (p.2 ++ rest) = mutationsBracketed rest) :
    mutationsBracketed ((if b = true then p else (g, ([] : List Ev))).2 ++ rest)
      = mutationsBracketed rest := by
  cases b
  · simp
  · simpa using hp

/-- C10: every gauge mutation performed by one iteration of the sampling
loop occurs with the process-wide mutex held: in the event trace of
`run_cycle`, every `prom_gauge_set` event is immediately preceded by the
`pthread_mutex_lock` acquisition and immediately followed by the
`pthread_mutex_unlock` release of the single `lock`, for every
combination of flags, readings and gauge state.  (The no-torn-read
consequence for concurrent HTTP scrapes is the stated purpose of this
bracketing discipline.) -/
theorem C10_gauge_mutations_locked (f : Flags) (r : Readings) (g : Gauges) :
    mutationsBracketed (run_cycle f r g).2 = true := by
  simp only [run_cycle]
  rw [mb_gated _ _ _ _ (mb_update_bandwidth _ _ _),
      mb_gated _ _ _ _ (mb_update_change_context _ _ _),
      mb_gated _ _ _ _ (mb_update_cpu _ _ _),
      mb_gated _ _ _ _ (mb_update_disk _ _ _),
      mb_update_memory, mb_update_network, mb_update_major, mb_update_minor,
      mb_update_memory_avalible, mb_update_memory_total, mb_update_memory_2,
      mb_update_disk_stats]
  exact mb_update_total_processes_closed _ _
